import Mathlib

/-!
Verification model of the zoom-curier-api order lifecycle, normalization
and COD settlement engine.

The definitions below are a shallow embedding of the JavaScript source:

* `OrderModel.*`    — src/models/order.model.js (SQL statements modelled as
  pure transformations of a `DB` value; `UPDATE ... WHERE` becomes a `map`
  over the row list, `SELECT ... LIMIT 1` becomes `List.find?`).
* `SettlementModel.*` — src/models/settlement.model.js.
* `OrderService.*`  — src/services/order.service.js (the in-memory code path).
* `Normalizer.*`    — src/services/normalizer.service.js.
* Controller functions — src/controllers/finance.controller.js and
  src/controllers/order.controller.js.

Randomness (`Math.random()` draws used for OTP generation) is modelled by
an explicit stream `r : Nat → Nat` of drawn indices; `NOW()` timestamps are
passed as explicit `now` arguments.  Monetary DECIMAL(10,2) amounts are
modelled as exact natural numbers.
-/

/-- JavaScript `String.prototype.toLowerCase` restricted to ASCII data. -/
def lowerStr (s : String) : String := String.mk (s.data.map Char.toLower)

/-- JavaScript `String.prototype.toUpperCase` restricted to ASCII data. -/
def upperStr (s : String) : String := String.mk (s.data.map Char.toUpper)

/-- JavaScript truthiness of an optional string (`undefined`/`""` are falsy). -/
def strTruthy : Option String → Bool
  | none => false
  | some s => s != ""

/-- JavaScript truthiness of an optional number (`undefined`/`0` are falsy). -/
def natTruthy : Option Nat → Bool
  | none => false
  | some n => n != 0

/-- A row of the `orders` table (the columns the modelled operations read
or write). -/
structure Order where
  id : Nat := 0
  internal_order_id : String
  external_order_id : String
  merchant_id : Option Nat := none
  driver_id : Option Nat := none
  status : String := "pending"
  recipient_name : String := ""
  recipient_phone : Option String := none
  aggregator_source : String
  is_overflow : Bool := false
  cod_amount : Nat := 0
  cod_currency : String := "RON"
  cod_status : String := "pending"
  settlement_id : Option String := none
  otp_code : Option String := none
  notes : Option String := none
  created_at : Nat := 0
  deriving DecidableEq

/-- A row of the `cod_settlements` table. -/
structure Settlement where
  settlement_id : String
  driver_id : Nat
  settlement_date : String
  total_orders : Nat
  total_cod_amount : Nat
  status : String
  submitted_at : Option String := none
  verified_at : Option String := none
  verified_by : Option String := none
  transferred_at : Option String := none
  transfer_reference : Option String := none
  notes : Option String := none
  deriving DecidableEq

/-- The database state: the `orders` and `cod_settlements` tables. -/
structure DB where
  orders : List Order := []
  settlements : List Settlement := []
  deriving DecidableEq

namespace OrderModel

/-- `UPDATE orders SET ... WHERE internal_order_id = ?` applied row-wise. -/
def updateWhere (db : DB) (oid : String) (f : Order → Order) : DB :=
  { db with orders := db.orders.map (fun o => if o.internal_order_id == oid then f o else o) }

/-- `generateOTPCode` of order.model.js: three letter/digit pairs drawn from
confusable-free alphabets; `r` is the stream of `Math.floor(Math.random()*len)`
draws (reduced mod the alphabet length, which is the identity on in-range
draws). -/
def generateOTPCode (r : Nat → Nat) : String :=
  let letters := "ABCDEFGHJKLMNPQRSTUVWXYZ".data
  let numbers := "23456789".data
  let pickL := fun i => letters.getD (r i % letters.length) 'A'
  let pickN := fun i => numbers.getD (r i % numbers.length) '2'
  String.mk [pickL 0, pickN 1, pickL 2, pickN 3, pickL 4, pickN 5]

/-- `create` of order.model.js: INSERT of a new row. -/
def create (db : DB) (orderData : Order) : DB × Order :=
  ({ db with orders := db.orders ++ [orderData] }, orderData)

/-- `findByInternalId`: `SELECT * FROM orders WHERE internal_order_id = ?`,
first result or null. -/
def findByInternalId (db : DB) (oid : String) : Option Order :=
  db.orders.find? (fun o => o.internal_order_id == oid)

/-- `findByExternalId`: lookup by `(external_order_id, aggregator_source)`
with the source lowercased. -/
def findByExternalId (db : DB) (eid src : String) : Option Order :=
  db.orders.find? (fun o => o.external_order_id == eid && o.aggregator_source == lowerStr src)

/-- `updateStatus`: sets `status` and `COALESCE(?, notes)` for notes, then
re-reads the row. -/
def updateStatus (db : DB) (oid st : String) (notesP : Option String) : DB × Option Order :=
  let db2 := updateWhere db oid (fun o =>
    { o with status := st,
             notes := match notesP with | some n => some n | none => o.notes })
  (db2, findByInternalId db2 oid)

/-- `assignDriver`: stores the driver, sets status to `assigned` and stores a
freshly generated OTP code, then re-reads the row. -/
def assignDriver (db : DB) (oid : String) (driverId : Nat) (r : Nat → Nat) :
    DB × Option Order :=
  let otpCode := generateOTPCode r
  let db2 := updateWhere db oid (fun o =>
    { o with driver_id := some driverId, status := "assigned", otp_code := some otpCode })
  (db2, findByInternalId db2 oid)

/-- `cancel`: sets status to `cancelled` and appends a cancellation note. -/
def cancel (db : DB) (oid : String) (reason : Option String) : DB × Option Order :=
  let db2 := updateWhere db oid (fun o =>
    { o with status := "cancelled",
             notes := some ((o.notes.getD "") ++ " | Cancelled: " ++ (reason.getD "No reason provided")) })
  (db2, findByInternalId db2 oid)

/-- `validateOTP`: the `{valid, error/order}` result object, as an `Except`. -/
def validateOTP (db : DB) (oid providedOTP : String) : Except String Order :=
  match findByInternalId db oid with
  | none => .error "Order not found"
  | some order =>
    match order.otp_code with
    | none => .error "No OTP code assigned to this order"
    | some stored =>
      if upperStr stored != upperStr providedOTP then .error "Invalid OTP code"
      else .ok order

/-- `markDelivered`: validates the OTP (throwing the validation error on
failure), then sets status to `delivered`, appends the delivery annotation to
notes and re-reads the row. -/
def markDelivered (db : DB) (oid providedOTP now : String) :
    Except String (DB × Option Order) :=
  match validateOTP db oid providedOTP with
  | .error e => .error e
  | .ok _ =>
    let db2 := updateWhere db oid (fun o =>
      { o with status := "delivered",
               notes := some ((o.notes.getD "") ++ " | Delivered with OTP validation at " ++ now) })
    .ok (db2, findByInternalId db2 oid)

end OrderModel

namespace SettlementModel

/-- Row predicate of `markOrdersCollected`: named, COD-bearing, delivered. -/
def collectPred (orderIds : List String) (o : Order) : Bool :=
  orderIds.contains o.internal_order_id && decide (0 < o.cod_amount) && o.status == "delivered"

/-- `markOrdersCollected`: bulk `UPDATE orders SET cod_status = 'collected'`
restricted to named, COD-bearing, delivered orders; returns the new state and
the number of matched rows. -/
def markOrdersCollected (db : DB) (orderIds : List String) : DB × Nat :=
  let db2 := { db with orders := db.orders.map (fun o =>
    if collectPred orderIds o then { o with cod_status := "collected" } else o) }
  (db2, (db.orders.filter (collectPred orderIds)).length)

/-- `createSettlement`: snapshots count and COD sum of the named orders,
inserts a `submitted` settlement row, then flips every named order to
`cod_status = 'submitted'` with the new `settlement_id`.  The generated
settlement id and `NOW()` are passed in explicitly. -/
def createSettlement (db : DB) (driverId : Nat) (date : String)
    (orderIds : List String) (sid now : String) : DB × Settlement :=
  let matched := db.orders.filter (fun o => orderIds.contains o.internal_order_id)
  let srow : Settlement :=
    { settlement_id := sid, driver_id := driverId, settlement_date := date,
      total_orders := matched.length,
      total_cod_amount := (matched.map Order.cod_amount).sum,
      status := "submitted", submitted_at := some now }
  let db2 : DB :=
    { orders := db.orders.map (fun o =>
        if orderIds.contains o.internal_order_id then
          { o with cod_status := "submitted", settlement_id := some sid }
        else o),
      settlements := db.settlements ++ [srow] }
  (db2, srow)

/-- `getSettlementById`: first row with the given settlement id, or null. -/
def getSettlementById (db : DB) (sid : String) : Option Settlement :=
  db.settlements.find? (fun s => s.settlement_id == sid)

/-- `verifySettlement`: guarded `UPDATE cod_settlements ... WHERE
settlement_id = ? AND status = 'submitted'`, then an unguarded
`UPDATE orders SET cod_status = 'settled' WHERE settlement_id = ?`, then a
re-read of the settlement row. -/
def verifySettlement (db : DB) (sid verifiedBy : String) (notesP : Option String)
    (now : String) : DB × Option Settlement :=
  let db2 := { db with settlements := db.settlements.map (fun (s : Settlement) =>
    if s.settlement_id == sid && s.status == "submitted" then
      { s with status := "verified", verified_at := some now, verified_by := some verifiedBy,
               notes := match notesP with | some n => some n | none => s.notes }
    else s) }
  let db3 := { db2 with orders := db2.orders.map (fun (o : Order) =>
    if o.settlement_id == some sid then { o with cod_status := "settled" } else o) }
  (db3, getSettlementById db3 sid)

/-- `markSettlementTransferred`: guarded `UPDATE cod_settlements ... WHERE
settlement_id = ? AND status = 'verified'`, then a re-read of the settlement
row (returned whether or not the update matched). -/
def markSettlementTransferred (db : DB) (sid transferReference now : String) :
    DB × Option Settlement :=
  let db2 := { db with settlements := db.settlements.map (fun (s : Settlement) =>
    if s.settlement_id == sid && s.status == "verified" then
      { s with status := "transferred", transferred_at := some now,
               transfer_reference := some transferReference }
    else s) }
  (db2, getSettlementById db2 sid)

end SettlementModel

/-- A hypothetical later correction of a stored order's `cod_amount` (no
operation in the source mutates it; this stands for an arbitrary such edit
when stating frame properties). -/
def setCodAmount (db : DB) (oid : String) (amount : Nat) : DB :=
  { db with orders := db.orders.map (fun o =>
      if o.internal_order_id == oid then { o with cod_amount := amount } else o) }

namespace OrderService

/-- `getOrderByExternalId` of order.service.js, in-memory path: find by
external id and lowercased source. -/
def getOrderByExternalId (st : List Order) (eid src : String) : Option Order :=
  st.find? (fun o => o.external_order_id == eid && o.aggregator_source == lowerStr src)

/-- `createOrder` of order.service.js, in-memory path: duplicate check by
`(external_order_id, aggregator_source)`; on a hit the existing record is
returned and nothing is stored; otherwise the payload is appended with
`id = length + 1`. -/
def createOrder (st : List Order) (orderData : Order) : List Order × Order :=
  match getOrderByExternalId st orderData.external_order_id orderData.aggregator_source with
  | some existingOrder => (st, existingOrder)
  | none =>
    let newOrder := { orderData with id := st.length + 1 }
    (st ++ [newOrder], newOrder)

/-- Query filters of `getOrders`/`findAll`.  String-valued query parameters
are `Option String` (absent = `undefined`); `merchant_id`/`driver_id` and the
date bounds are modelled as numbers. -/
structure OrderFilters where
  status : Option String := none
  source : Option String := none
  is_overflow : Option String := none
  merchant_id : Option Nat := none
  driver_id : Option Nat := none
  date_from : Option Nat := none
  date_to : Option Nat := none

/-- `getOrders` of order.service.js, in-memory path: filters only `status`,
`source` and `is_overflow`, then `results.slice(offset, offset + limit)`. -/
def getOrders (st : List Order) (f : OrderFilters) (limit offset : Nat) : List Order :=
  let r := st
  let r := if strTruthy f.status then r.filter (fun o => o.status == f.status.getD "") else r
  let r := if strTruthy f.source then
      r.filter (fun o => o.aggregator_source == lowerStr (f.source.getD "")) else r
  let r := if f.is_overflow.isSome then
      r.filter (fun o => o.is_overflow == (f.is_overflow.getD "" == "true")) else r
  (r.take (offset + limit)).drop offset

end OrderService

namespace OrderModel

/-- The WHERE clause accumulated by `findAll` of order.model.js: each filter
contributes a conjunct exactly when the corresponding request value is truthy
(for `is_overflow`: merely defined), with the source lowercased and the
boolean filter compared through its 0/1 column encoding. -/
def rowMatches (f : OrderService.OrderFilters) (o : Order) : Bool :=
  (if strTruthy f.status then o.status == f.status.getD "" else true) &&
  (if strTruthy f.source then o.aggregator_source == lowerStr (f.source.getD "") else true) &&
  (if f.is_overflow.isSome then
      (if o.is_overflow then (1 : Nat) else 0) == (if f.is_overflow.getD "" == "true" then 1 else 0)
    else true) &&
  (if natTruthy f.merchant_id then o.merchant_id == some (f.merchant_id.getD 0) else true) &&
  (if natTruthy f.driver_id then o.driver_id == some (f.driver_id.getD 0) else true) &&
  (if natTruthy f.date_from then decide (f.date_from.getD 0 ≤ o.created_at) else true) &&
  (if natTruthy f.date_to then decide (o.created_at ≤ f.date_to.getD 0) else true)

/-- `ORDER BY created_at DESC`. -/
def createdDesc (a b : Order) : Prop := b.created_at ≤ a.created_at

instance : DecidableRel createdDesc := fun a b =>
  inferInstanceAs (Decidable (b.created_at ≤ a.created_at))

/-- `findAll` of order.model.js: WHERE filters, `ORDER BY created_at DESC`,
`LIMIT ? OFFSET ?`. -/
def findAll (rows : List Order) (f : OrderService.OrderFilters) (limit offset : Nat) :
    List Order :=
  ((((rows.filter (rowMatches f)).insertionSort createdDesc).drop offset).take limit)

end OrderModel

namespace Normalizer

/-- The character class kept by `cleanPhoneNumber`'s regex replace: digits
and the plus sign. -/
def phoneKeep (c : Char) : Bool := c.isDigit || c == '+'

/-- `cleanPhoneNumber` of normalizer.service.js: strips non-digit/non-plus
characters, rewrites `0` + 9 digits to `+40...`, prefixes bare `40...`
(11 digits) with `+`, passes everything else through; falsy input maps to
null. -/
def cleanPhoneNumber (phone : Option String) : Option String :=
  match phone with
  | none => none
  | some p =>
    if p = "" then none
    else
      let cleaned := p.data.filter phoneKeep
      let cleaned :=
        if cleaned.head? = some '0' ∧ cleaned.length = 10 then
          '+' :: '4' :: '0' :: cleaned.tail
        else if cleaned.take 2 = ['4', '0'] ∧ cleaned.length = 11 then
          '+' :: cleaned
        else cleaned
      some (String.mk cleaned)

end Normalizer

/-- Minimal HTTP response shape shared by the modelled controller handlers. -/
inductive HandlerOutcome where
  | response (httpStatus : Nat) (success : Bool)
  | forwarded (message : String)
  deriving DecidableEq

namespace FinanceController

/-- `markSettlementTransferred` of finance.controller.js: 400 on a falsy
transfer reference, 404 only when the model returns null, otherwise a 200
success carrying whatever settlement row the model re-read. -/
def markSettlementTransferred (db : DB) (sid : String)
    (transferReference : Option String) (now : String) :
    DB × HandlerOutcome × Option Settlement :=
  if !(strTruthy transferReference) then (db, .response 400 false, none)
  else
    let res := SettlementModel.markSettlementTransferred db sid (transferReference.getD "") now
    match res.2 with
    | none => (res.1, .response 404 false, none)
    | some settlement => (res.1, .response 200 true, some settlement)

end FinanceController

namespace OrderController

/-- The property names exported by `module.exports` of order.service.js. -/
def orderServiceExports : List String :=
  ["createOrder", "getOrders", "getOrderById", "getOrderByExternalId",
   "updateOrderStatus", "assignDriver", "cancelOrder", "getOrderStats"]

/-- Bool-valued list-leading test on character data. -/
def leadsList : List Char → List Char → Bool
  | [], _ => true
  | _ :: _, [] => false
  | a :: as, b :: bs => a == b && leadsList as bs

/-- Bool-valued contiguous-occurrence test on character data. -/
def occursIn (sub : List Char) : List Char → Bool
  | [] => sub.isEmpty
  | c :: rest => leadsList sub (c :: rest) || occursIn sub rest

/-- JavaScript `String.prototype.includes`. -/
def strIncludes (s sub : String) : Bool := occursIn sub.data s.data

/-- The message of the TypeError raised by invoking a property that the
service module does not export. -/
def typeErrorMessage : String := "orderService.markDelivered is not a function"

/-- The catch block of the `markDelivered` handler: 400 for OTP-flavoured
messages, otherwise `next(error)`. -/
def markDeliveredCatch (msg : String) : HandlerOutcome :=
  if strIncludes msg "OTP" || strIncludes msg "Invalid" || strIncludes msg "not found" then
    .response 400 false
  else .forwarded msg

/-- `markDelivered` of order.controller.js, parameterized by the resolution
of the `orderService.markDelivered` property (`none` models `undefined`,
whose invocation raises a TypeError): 400 when the body carries no truthy
`otp_code`, otherwise the service call decides between the 200 success and
the catch block. -/
def markDelivered (svc : Option (String → String → Except String (Option Order)))
    (oid : String) (otpBody : Option String) : HandlerOutcome :=
  if !(strTruthy otpBody) then .response 400 false
  else
    match svc with
    | none => markDeliveredCatch typeErrorMessage
    | some f =>
      match f oid (otpBody.getD "") with
      | .error e => markDeliveredCatch e
      | .ok _ => .response 200 true

end OrderController

/-- The audited snapshot pair `(total_orders, total_cod_amount)` of a stored
settlement. -/
def settlementTotals (db : DB) (sid : String) : Option (Nat × Nat) :=
  (SettlementModel.getSettlementById db sid).map (fun s => (s.total_orders, s.total_cod_amount))

/-! Concrete states used to instantiate the theorems below. -/

/-- An in-transit order holding an issued OTP. -/
def ordInTransit : Order :=
  { internal_order_id := "ZC-A1", external_order_id := "E-A1", aggregator_source := "gomag",
    status := "in_transit", otp_code := some "A2B3C4", recipient_name := "Ana",
    cod_amount := 150 }

def dbInTransit : DB := { orders := [ordInTransit] }

/-- A normalized ingestion payload (id yet unset). -/
def ordPayload : Order :=
  { internal_order_id := "ZC-N1", external_order_id := "EXT-1", aggregator_source := "gomag",
    recipient_name := "Ion", recipient_phone := some "+40712345678", cod_amount := 150 }

/-- A pending (undelivered) COD order. -/
def ordPending : Order :=
  { internal_order_id := "ZC-P1", external_order_id := "E-P1", aggregator_source := "gomag",
    status := "pending", cod_amount := 100 }

def dbPending : DB := { orders := [ordPending] }

/-- Two delivered COD orders of 50 and 75 RON. -/
def ordDelivered : Order :=
  { internal_order_id := "ZC-D1", external_order_id := "E-D1", aggregator_source := "gomag",
    status := "delivered", cod_amount := 50 }

def ordDelivered2 : Order :=
  { internal_order_id := "ZC-D2", external_order_id := "E-D2", aggregator_source := "gomag",
    status := "delivered", cod_amount := 75 }

def dbDelivered : DB := { orders := [ordDelivered] }

def dbTwoDelivered : DB := { orders := [ordDelivered, ordDelivered2] }

/-- A settlement sitting in `submitted` status. -/
def subSettlement : Settlement :=
  { settlement_id := "SET-5", driver_id := 3, settlement_date := "2026-02-05",
    total_orders := 2, total_cod_amount := 125, status := "submitted",
    submitted_at := some "T0" }

def dbSubmitted : DB := { settlements := [subSettlement] }

/-- A fresh pending order with no OTP. -/
def ordFresh : Order :=
  { internal_order_id := "ZC-F1", external_order_id := "E-F1", aggregator_source := "gomag",
    status := "pending" }

def dbFresh : DB := { orders := [ordFresh] }

/-- Random-index stream drawing the OTP `A2B3C4`. -/
def drawsA : Nat → Nat := fun i => [0, 0, 1, 1, 2, 2].getD i 0

/-- Random-index stream drawing the OTP `D5E6F7`. -/
def drawsB : Nat → Nat := fun i => [3, 3, 4, 4, 5, 5].getD i 0

/-- Two stored orders from different merchants, in reverse-chronological
order. -/
def ordM1 : Order :=
  { internal_order_id := "ZC-M1", external_order_id := "E-M1", aggregator_source := "gomag",
    merchant_id := some 1, created_at := 2 }

def ordM2 : Order :=
  { internal_order_id := "ZC-M2", external_order_id := "E-M2", aggregator_source := "shopify",
    merchant_id := some 2, created_at := 1 }

def rowsTwoMerchants : List Order := [ordM1, ordM2]

/-- A query filtering on `merchant_id = 2` only. -/
def filtersMerchant2 : OrderService.OrderFilters := { merchant_id := some 2 }

/-- A query filtering on `source = gomag` only. -/
def filtersGomag : OrderService.OrderFilters := { source := some "gomag" }

/-! Helper lemmas. -/

/-- `find?` commutes with a row-wise update that preserves the searched
predicate. -/
theorem find?_map_pres {α : Type} (Q : α → Bool) (g : α → α)
    (hg : ∀ a, Q (g a) = Q a) : ∀ l : List α, (l.map g).find? Q = (l.find? Q).map g := by
  intro l
  induction l with
  | nil => rfl
  | cons a l ih =>
    cases h : Q a with
    | true =>
      rw [List.map_cons, List.find?_cons_of_pos _ (by rw [hg a]; exact h),
        List.find?_cons_of_pos _ h]
      rfl
    | false =>
      rw [List.map_cons, List.find?_cons_of_neg _ (by simp [hg a, h]),
        List.find?_cons_of_neg _ (by simp [h]), ih]

/-- Reading back a keyed row after `updateWhere` returns the updated row,
provided the update function keeps the key. -/
theorem findByInternalId_updateWhere (db : DB) (oid : String) (f : Order → Order)
    (hf : ∀ o, (f o).internal_order_id = o.internal_order_id) :
    OrderModel.findByInternalId (OrderModel.updateWhere db oid f) oid
      = (OrderModel.findByInternalId db oid).map
          (fun o => if o.internal_order_id == oid then f o else o) := by
  unfold OrderModel.findByInternalId OrderModel.updateWhere
  exact find?_map_pres _ _
    (fun o => by cases h : o.internal_order_id == oid <;> simp [h, hf]) _

/-- The 0/1 column encoding of a boolean equality test. -/
theorem natIf_beq (a b : Bool) :
    ((if a then (1 : Nat) else 0) == (if b then (1 : Nat) else 0)) = (a == b) := by
  cases a <;> cases b <;> rfl

/-! Claim theorems. -/

/-- C1: for an order stored under `oid`, `markDelivered` fails with the
no-OTP error when no OTP was ever issued, fails with the mismatch error when
the provided code differs case-insensitively from the stored one, and when
the provided code matches case-insensitively it succeeds, setting status to
`delivered` and appending the delivery annotation to notes while otp_code
(and every other field) is retained unchanged. -/
theorem c1_markDelivered_otp_gate
    (db : DB) (oid providedOTP now : String) (o : Order)
    (h : OrderModel.findByInternalId db oid = some o) :
    (o.otp_code = none →
      OrderModel.markDelivered db oid providedOTP now
        = .error "No OTP code assigned to this order")
    ∧ (∀ stored, o.otp_code = some stored → upperStr stored ≠ upperStr providedOTP →
      OrderModel.markDelivered db oid providedOTP now = .error "Invalid OTP code")
    ∧ (∀ stored, o.otp_code = some stored → upperStr stored = upperStr providedOTP →
      OrderModel.markDelivered db oid providedOTP now
        = .ok (OrderModel.updateWhere db oid (fun q =>
            { q with status := "delivered",
                     notes := some ((q.notes.getD "")
                       ++ " | Delivered with OTP validation at " ++ now) }),
          some { o with
                 status := "delivered",
                 notes := some ((o.notes.getD "")
                   ++ " | Delivered with OTP validation at " ++ now) })) := by
  have h' : db.orders.find? (fun q => q.internal_order_id == oid) = some o := h
  have ho : (o.internal_order_id == oid) = true := by
    simpa using List.find?_some h'
  refine ⟨?_, ?_, ?_⟩
  · intro hn
    simp [OrderModel.markDelivered, OrderModel.validateOTP, h, hn]
  · intro stored hs hne
    have hb : (upperStr stored != upperStr providedOTP) = true := by
      simpa [bne_iff_ne] using hne
    simp [OrderModel.markDelivered, OrderModel.validateOTP, h, hs, hb]
  · intro stored hs heq
    have hb : (upperStr stored != upperStr providedOTP) = false := by
      simp [heq]
    simp only [OrderModel.markDelivered, OrderModel.validateOTP, h, hs, hb,
      Bool.false_eq_true, if_false, reduceCtorEq]
    have hread := findByInternalId_updateWhere db oid (fun q =>
      { q with status := "delivered",
               notes := some ((q.notes.getD "")
                 ++ " | Delivered with OTP validation at " ++ now) })
      (fun q => rfl)
    have hoeq : o.internal_order_id = oid := by simpa using ho
    rw [h] at hread
    simp [hoeq] at hread
    rw [hread, hoeq, hs]

/-- C1 witness: a concrete in-transit order with stored OTP `A2B3C4`
confirmed with the case-insensitively equal code `a2b3c4`. -/
theorem c1_markDelivered_otp_gate_witness :
    OrderModel.markDelivered dbInTransit "ZC-A1" "a2b3c4" "2026-02-05T10:00"
      = .ok (OrderModel.updateWhere dbInTransit "ZC-A1" (fun q =>
          { q with status := "delivered",
                   notes := some ((q.notes.getD "")
                     ++ " | Delivered with OTP validation at " ++ "2026-02-05T10:00") }),
        some { ordInTransit with
               status := "delivered",
               notes := some ((ordInTransit.notes.getD "")
                 ++ " | Delivered with OTP validation at " ++ "2026-02-05T10:00") }) :=
  (c1_markDelivered_otp_gate dbInTransit "ZC-A1" "a2b3c4" "2026-02-05T10:00" ordInTransit
    (by decide)).2.2 "A2B3C4" (by decide) (by decide)

/-- C2: ingesting two payloads sharing the `(external_id, source)` natural
key (with the source in normalized lowercase form, as the normalizer
guarantees) stores exactly one record: the first call appends it, the second
call stores nothing and returns the first stored record unchanged. -/
theorem c2_createOrder_idempotent
    (st : List Order) (d1 d2 : Order)
    (hsrc : lowerStr d1.aggregator_source = d1.aggregator_source)
    (h2src : d2.aggregator_source = d1.aggregator_source)
    (h2eid : d2.external_order_id = d1.external_order_id)
    (hnew : OrderService.getOrderByExternalId st d1.external_order_id d1.aggregator_source
      = none) :
    (OrderService.createOrder (OrderService.createOrder st d1).1 d2).1
        = (OrderService.createOrder st d1).1
    ∧ (OrderService.createOrder (OrderService.createOrder st d1).1 d2).2
        = (OrderService.createOrder st d1).2
    ∧ (OrderService.createOrder st d1).1.length = st.length + 1 := by
  have hstep1 : OrderService.createOrder st d1
      = (st ++ [{ d1 with id := st.length + 1 }], { d1 with id := st.length + 1 }) := by
    unfold OrderService.createOrder
    rw [hnew]
  have hfound : OrderService.getOrderByExternalId (st ++ [{ d1 with id := st.length + 1 }])
      d2.external_order_id d2.aggregator_source = some { d1 with id := st.length + 1 } := by
    unfold OrderService.getOrderByExternalId at hnew ⊢
    rw [h2src, h2eid, List.find?_append, hnew, Option.none_or]
    simp [hsrc]
  have hstep2 : OrderService.createOrder (st ++ [{ d1 with id := st.length + 1 }]) d2
      = (st ++ [{ d1 with id := st.length + 1 }], { d1 with id := st.length + 1 }) := by
    unfold OrderService.createOrder
    rw [hfound]
  rw [hstep1]
  exact ⟨by rw [hstep2], by rw [hstep2], by simp⟩

/-- C2 witness: re-delivering the same normalized `gomag` payload to an
empty store yields one stored record and returns it unchanged. -/
theorem c2_createOrder_idempotent_witness :
    (OrderService.createOrder (OrderService.createOrder [] ordPayload).1 ordPayload).1
        = (OrderService.createOrder [] ordPayload).1
    ∧ (OrderService.createOrder (OrderService.createOrder [] ordPayload).1 ordPayload).2
        = (OrderService.createOrder [] ordPayload).2
    ∧ (OrderService.createOrder [] ordPayload).1.length = ([] : List Order).length + 1 :=
  c2_createOrder_idempotent [] ordPayload ordPayload (by decide) rfl rfl rfl

/-- C3 (failing evaluation): `createSettlement` flips a COD order that is
still `pending` (never delivered) to `cod_status = "submitted"`, violating
the invariant that `cod_status` never advances beyond `pending` while
`status` is not `delivered`; `markOrdersCollected` guards on delivery, but
`createSettlement` applies no such guard to the order ids it is handed. -/
theorem c3_createSettlement_violates_cod_invariant :
    ordPending.status = "pending" ∧ ordPending.cod_status = "pending"
    ∧ ((SettlementModel.createSettlement dbPending 7 "2026-02-05" ["ZC-P1"] "SET-1" "T0").1.orders.map
        (fun o => (o.internal_order_id, o.status, o.cod_status)))
      = [("ZC-P1", "pending", "submitted")] := by decide

/-- C4 (failing evaluation): a reachable trace — collect, settle, verify,
collect again — leaves settlement `SET-9` in `verified` status with its
member order back at `cod_status = "collected"`; calling `verifySettlement`
again then fails its `status = submitted` precondition (the settlement row
stays `verified`) yet still mutates the member order to
`cod_status = "settled"`, a visible partial update. -/
theorem c4_verifySettlement_mutates_on_failed_precondition :
    ((SettlementModel.getSettlementById
        ((SettlementModel.markOrdersCollected
          (SettlementModel.verifySettlement
            (SettlementModel.createSettlement
              (SettlementModel.markOrdersCollected dbDelivered ["ZC-D1"]).1
              3 "2026-02-05" ["ZC-D1"] "SET-9" "T1").1
            "SET-9" "disp" none "T2").1
          ["ZC-D1"]).1) "SET-9").map Settlement.status = some "verified")
    ∧ (((SettlementModel.markOrdersCollected
          (SettlementModel.verifySettlement
            (SettlementModel.createSettlement
              (SettlementModel.markOrdersCollected dbDelivered ["ZC-D1"]).1
              3 "2026-02-05" ["ZC-D1"] "SET-9" "T1").1
            "SET-9" "disp" none "T2").1
          ["ZC-D1"]).1.orders.map Order.cod_status) = ["collected"])
    ∧ ((SettlementModel.getSettlementById
        (SettlementModel.verifySettlement
          (SettlementModel.markOrdersCollected
            (SettlementModel.verifySettlement
              (SettlementModel.createSettlement
                (SettlementModel.markOrdersCollected dbDelivered ["ZC-D1"]).1
                3 "2026-02-05" ["ZC-D1"] "SET-9" "T1").1
              "SET-9" "disp" none "T2").1
            ["ZC-D1"]).1
          "SET-9" "disp" none "T3").1 "SET-9").map Settlement.status = some "verified")
    ∧ (((SettlementModel.verifySettlement
          (SettlementModel.markOrdersCollected
            (SettlementModel.verifySettlement
              (SettlementModel.createSettlement
                (SettlementModel.markOrdersCollected dbDelivered ["ZC-D1"]).1
                3 "2026-02-05" ["ZC-D1"] "SET-9" "T1").1
              "SET-9" "disp" none "T2").1
            ["ZC-D1"]).1
          "SET-9" "disp" none "T3").1.orders.map Order.cod_status) = ["settled"]) := by decide

/-- C5 (failing evaluation): calling the transfer endpoint on a settlement
still in `submitted` status leaves the settlement unchanged but the
controller reports a 200 success, because the model re-reads and returns the
(existing, unmodified) row after the guarded update matches nothing. -/
theorem c5_transfer_on_submitted_reports_success :
    (FinanceController.markSettlementTransferred dbSubmitted "SET-5" (some "TRF-1") "T1").2.1
      = HandlerOutcome.response 200 true
    ∧ (SettlementModel.getSettlementById
        (FinanceController.markSettlementTransferred dbSubmitted "SET-5" (some "TRF-1") "T1").1
        "SET-5").map Settlement.status = some "submitted" := by decide

/-- C7 counterexample: a second `assignDriver` call on an already-assigned
order replaces the stored OTP (`A2B3C4` becomes `D5E6F7`), so the OTP is not
generated exactly once. -/
theorem c7_reassignment_replaces_otp :
    ((OrderModel.findByInternalId (OrderModel.assignDriver dbFresh "ZC-F1" 5 drawsA).1
        "ZC-F1").map Order.otp_code = some (some "A2B3C4"))
    ∧ ((OrderModel.findByInternalId
        (OrderModel.assignDriver (OrderModel.assignDriver dbFresh "ZC-F1" 5 drawsA).1
          "ZC-F1" 6 drawsB).1 "ZC-F1").map Order.otp_code = some (some "D5E6F7"))
    ∧ (some "A2B3C4" : Option String) ≠ some "D5E6F7" := by decide

/-- C7 amended: every `assignDriver` call stores a freshly generated
(non-null) OTP, replacing whatever was stored before, while the other
lifecycle operations — `updateStatus`, `cancel` and `markDelivered` — leave
the stored `otp_code` unchanged (delivery confirmation checks it without
clearing it). -/
theorem c7_amended_otp_lifecycle
    (db : DB) (oid : String) (o : Order)
    (h : OrderModel.findByInternalId db oid = some o) :
    (∀ driverId r,
      (OrderModel.findByInternalId (OrderModel.assignDriver db oid driverId r).1 oid).map
        Order.otp_code = some (some (OrderModel.generateOTPCode r)))
    ∧ (∀ st notesP,
      (OrderModel.findByInternalId (OrderModel.updateStatus db oid st notesP).1 oid).map
        Order.otp_code = some o.otp_code)
    ∧ (∀ reason,
      (OrderModel.findByInternalId (OrderModel.cancel db oid reason).1 oid).map
        Order.otp_code = some o.otp_code)
    ∧ (∀ providedOTP now db2 rest,
      OrderModel.markDelivered db oid providedOTP now = .ok (db2, rest) →
      (OrderModel.findByInternalId db2 oid).map Order.otp_code = some o.otp_code) := by
  have h' : db.orders.find? (fun q => q.internal_order_id == oid) = some o := h
  have hoeq : o.internal_order_id = oid := by simpa using List.find?_some h'
  refine ⟨?_, ?_, ?_, ?_⟩
  · intro driverId r
    have hread := findByInternalId_updateWhere db oid (fun q =>
      { q with driver_id := some driverId, status := "assigned",
               otp_code := some (OrderModel.generateOTPCode r) }) (fun q => rfl)
    rw [h] at hread
    simp [hoeq] at hread
    simp [OrderModel.assignDriver, hread]
  · intro st notesP
    have hread := findByInternalId_updateWhere db oid (fun q =>
      { q with status := st,
               notes := match notesP with | some n => some n | none => q.notes }) (fun q => rfl)
    rw [h] at hread
    simp [hoeq] at hread
    simp [OrderModel.updateStatus, hread]
  · intro reason
    have hread := findByInternalId_updateWhere db oid (fun q =>
      { q with status := "cancelled",
               notes := some ((q.notes.getD "") ++ " | Cancelled: "
                 ++ (reason.getD "No reason provided")) }) (fun q => rfl)
    rw [h] at hread
    simp [hoeq] at hread
    simp [OrderModel.cancel, hread]
  · intro providedOTP now db2 rest hmd
    unfold OrderModel.markDelivered at hmd
    cases hv : OrderModel.validateOTP db oid providedOTP with
    | error e => rw [hv] at hmd; exact absurd hmd (by simp)
    | ok q =>
      rw [hv] at hmd
      injection hmd with hpair
      rw [Prod.mk.injEq] at hpair
      rw [← hpair.1]
      have hread := findByInternalId_updateWhere db oid (fun q =>
        { q with status := "delivered",
                 notes := some ((q.notes.getD "")
                   ++ " | Delivered with OTP validation at " ++ now) }) (fun q => rfl)
      rw [h] at hread
      simp [hoeq] at hread
      simp [hread]

/-- C7 amended witness: assigning driver 5 to the fresh fixture order stores
exactly the OTP generated from the supplied random draws. -/
theorem c7_amended_otp_lifecycle_witness :
    (OrderModel.findByInternalId (OrderModel.assignDriver dbFresh "ZC-F1" 5 drawsA).1
        "ZC-F1").map Order.otp_code = some (some (OrderModel.generateOTPCode drawsA)) :=
  (c7_amended_otp_lifecycle dbFresh "ZC-F1" ordFresh (by decide)).1 5 drawsA

/-- A row-wise rewrite of the settlements table that keeps each row's id and
snapshot totals also keeps the totals read back for any settlement id. -/
theorem settlementTotals_map_pres (g : Settlement → Settlement)
    (hkeep : ∀ s, (g s).settlement_id = s.settlement_id)
    (htot : ∀ s, (g s).total_orders = s.total_orders
      ∧ (g s).total_cod_amount = s.total_cod_amount)
    (db : DB) (orders2 : List Order) (sid : String) :
    settlementTotals ⟨orders2, db.settlements.map g⟩ sid = settlementTotals db sid := by
  unfold settlementTotals SettlementModel.getSettlementById
  rw [find?_map_pres (fun s => s.settlement_id == sid) g (fun s => by simp only [hkeep s])]
  cases hfind : db.settlements.find? (fun s => s.settlement_id == sid) with
  | none => rfl
  | some s => simp [(htot s).1, (htot s).2]

/-- C6: `createSettlement` stores as `(total_orders, total_cod_amount)`
exactly the count and COD sum of the named orders at creation time, and no
later operation — a direct `cod_amount` correction, `markOrdersCollected`,
`verifySettlement`, `markSettlementTransferred`, any keyed order update or a
new order insert — ever changes that stored snapshot. -/
theorem c6_settlement_snapshot_frame
    (db : DB) (driverId : Nat) (date : String) (orderIds : List String) (sid now : String)
    (hfresh : SettlementModel.getSettlementById db sid = none) :
    (settlementTotals (SettlementModel.createSettlement db driverId date orderIds sid now).1 sid
      = some ((db.orders.filter (fun o => orderIds.contains o.internal_order_id)).length,
              ((db.orders.filter (fun o => orderIds.contains o.internal_order_id)).map
                Order.cod_amount).sum))
    ∧ (∀ db2 oid amount, settlementTotals (setCodAmount db2 oid amount) sid
        = settlementTotals db2 sid)
    ∧ (∀ db2 ids, settlementTotals (SettlementModel.markOrdersCollected db2 ids).1 sid
        = settlementTotals db2 sid)
    ∧ (∀ db2 sid2 vby notesP t,
        settlementTotals (SettlementModel.verifySettlement db2 sid2 vby notesP t).1 sid
          = settlementTotals db2 sid)
    ∧ (∀ db2 sid2 ref t,
        settlementTotals (SettlementModel.markSettlementTransferred db2 sid2 ref t).1 sid
          = settlementTotals db2 sid)
    ∧ (∀ db2 oid g, settlementTotals (OrderModel.updateWhere db2 oid g) sid
        = settlementTotals db2 sid)
    ∧ (∀ db2 d, settlementTotals (OrderModel.create db2 d).1 sid = settlementTotals db2 sid) := by
  refine ⟨?_, fun db2 oid amount => rfl, fun db2 ids => rfl, ?_, ?_, fun db2 oid g => rfl,
    fun db2 d => rfl⟩
  · have hf : db.settlements.find? (fun s => s.settlement_id == sid) = none := hfresh
    simp [settlementTotals, SettlementModel.getSettlementById, SettlementModel.createSettlement,
      List.find?_append, hf]
  · intro db2 sid2 vby notesP t
    exact settlementTotals_map_pres _
      (fun s => by cases hc : (s.settlement_id == sid2 && s.status == "submitted") <;> simp [hc])
      (fun s => by cases hc : (s.settlement_id == sid2 && s.status == "submitted") <;> simp [hc])
      db2 _ sid
  · intro db2 sid2 ref t
    exact settlementTotals_map_pres _
      (fun s => by cases hc : (s.settlement_id == sid2 && s.status == "verified") <;> simp [hc])
      (fun s => by cases hc : (s.settlement_id == sid2 && s.status == "verified") <;> simp [hc])
      db2 _ sid

/-- C6 witness: settling the two delivered fixture orders of 50 and 75 RON
snapshots `(2, 125)`. -/
theorem c6_settlement_snapshot_frame_witness :
    settlementTotals
      (SettlementModel.createSettlement dbTwoDelivered 3 "2026-02-05" ["ZC-D1", "ZC-D2"]
        "SET-W" "T0").1 "SET-W" = some (2, 125) := by
  have h := (c6_settlement_snapshot_frame dbTwoDelivered 3 "2026-02-05" ["ZC-D1", "ZC-D2"]
    "SET-W" "T0" (by decide)).1
  rw [h]
  decide

/-- C8 counterexample: on the same stored state, filtering by
`merchant_id = 2` returns one row through the SQL-modelled `findAll` but both
rows through the in-memory `getOrders`, which silently ignores that filter —
the two implementations do not have identical external contracts. -/
theorem c8_filters_contract_differs :
    OrderService.getOrders rowsTwoMerchants filtersMerchant2 50 0
      ≠ OrderModel.findAll rowsTwoMerchants filtersMerchant2 50 0 := by decide

/-- C8 amended: the in-memory implementation agrees with the SQL-modelled
`findAll` only on the filters it implements — `status`, `source` and
`is_overflow` — and only over stores whose insertion order is already
reverse-chronological (it applies no ordering of its own); the
`merchant_id`, `driver_id`, `date_from` and `date_to` filters are ignored by
the in-memory path. -/
theorem c8_amended_inmemory_agreement
    (rows : List Order) (f : OrderService.OrderFilters) (limit offset : Nat)
    (hm : f.merchant_id = none) (hd : f.driver_id = none)
    (hfrom : f.date_from = none) (hto : f.date_to = none)
    (hsorted : List.Sorted OrderModel.createdDesc rows) :
    OrderService.getOrders rows f limit offset = OrderModel.findAll rows f limit offset := by
  have hpred : ∀ o : Order, OrderModel.rowMatches f o =
      ((if strTruthy f.status then o.status == f.status.getD "" else true) &&
       (if strTruthy f.source then o.aggregator_source == lowerStr (f.source.getD "") else true) &&
       (if f.is_overflow.isSome then o.is_overflow == (f.is_overflow.getD "" == "true")
        else true)) := by
    intro o
    unfold OrderModel.rowMatches
    rw [hm, hd, hfrom, hto]
    cases hb : o.is_overflow <;> cases hc : (f.is_overflow.getD "" == "true") <;>
      simp [natTruthy, hb, hc]
  have hfilter :
      (let r := rows
       let r := if strTruthy f.status then r.filter (fun o => o.status == f.status.getD "") else r
       let r := if strTruthy f.source then
           r.filter (fun o => o.aggregator_source == lowerStr (f.source.getD "")) else r
       if f.is_overflow.isSome then
           r.filter (fun o => o.is_overflow == (f.is_overflow.getD "" == "true")) else r)
      = rows.filter (OrderModel.rowMatches f) := by
    cases hst : strTruthy f.status <;> cases hsrc : strTruthy f.source <;>
      cases hov : f.is_overflow.isSome <;>
      simp only [hst, hsrc, hov, if_true, if_false, Bool.false_eq_true, List.filter_filter]
    all_goals first
      | exact (List.filter_eq_self.mpr (fun o ho => by
          rw [hpred o]; simp [hst, hsrc, hov])).symm
      | exact List.filter_congr (fun o ho => by
          rw [hpred o]
          cases h1 : (o.status == f.status.getD "") <;>
            cases h2 : (o.aggregator_source == lowerStr (f.source.getD "")) <;>
            cases h3 : (o.is_overflow == (f.is_overflow.getD "" == "true")) <;>
            simp [h1, h2, h3, hst, hsrc, hov])
  have hsortedf : List.Sorted OrderModel.createdDesc (rows.filter (OrderModel.rowMatches f)) :=
    hsorted.filter _
  simp only at hfilter
  unfold OrderService.getOrders OrderModel.findAll
  simp only []
  rw [hfilter, hsortedf.insertionSort_eq, List.drop_take, Nat.add_sub_cancel_left]

/-- C8 amended witness: a `source = gomag` query over the two-merchant store
(held in reverse-chronological order) returns the same single row through
both implementations. -/
theorem c8_amended_inmemory_agreement_witness :
    OrderService.getOrders rowsTwoMerchants filtersGomag 50 0
      = OrderModel.findAll rowsTwoMerchants filtersGomag 50 0 :=
  c8_amended_inmemory_agreement rowsTwoMerchants filtersGomag 50 0 rfl rfl rfl rfl (by decide)

/-- C9: `cleanPhoneNumber` rewrites a 10-digit number with a leading `0`
into the same digits behind the `+40` country prefix, passes an
already-prefixed `+`-number of kept characters through unchanged, and maps a
missing or empty phone to null. -/
theorem c9_cleanPhoneNumber_normalizes
    (t : List Char) (hlen : t.length = 9) (hdig : ∀ c ∈ t, c.isDigit = true) :
    (Normalizer.cleanPhoneNumber (some (String.mk ('0' :: t)))
      = some (String.mk ('+' :: '4' :: '0' :: t)))
    ∧ (∀ u : List Char, (∀ c ∈ u, Normalizer.phoneKeep c = true) →
        Normalizer.cleanPhoneNumber (some (String.mk ('+' :: u)))
          = some (String.mk ('+' :: u)))
    ∧ Normalizer.cleanPhoneNumber none = none
    ∧ Normalizer.cleanPhoneNumber (some "") = none := by
  refine ⟨?_, ?_, rfl, rfl⟩
  · have hne : ¬ (String.mk ('0' :: t) = "") := by
      intro hh
      have := congrArg String.data hh
      simp at this
    have hfilter : ('0' :: t).filter Normalizer.phoneKeep = '0' :: t :=
      List.filter_eq_self.mpr (by
        intro c hc
        rcases List.mem_cons.mp hc with h0 | hmem
        · subst h0; rfl
        · simp [Normalizer.phoneKeep, hdig c hmem])
    unfold Normalizer.cleanPhoneNumber
    simp only [if_neg hne]
    rw [hfilter, if_pos ⟨rfl, by simp [hlen]⟩]
    rfl
  · intro u hu
    have hne : ¬ (String.mk ('+' :: u) = "") := by
      intro hh
      have := congrArg String.data hh
      simp at this
    have hfilter : ('+' :: u).filter Normalizer.phoneKeep = '+' :: u :=
      List.filter_eq_self.mpr (by
        intro c hc
        rcases List.mem_cons.mp hc with h0 | hmem
        · subst h0; rfl
        · exact hu c hmem)
    unfold Normalizer.cleanPhoneNumber
    simp only [if_neg hne]
    rw [hfilter]
    rw [if_neg (by rintro ⟨h1, h2⟩; simp at h1)]
    rw [if_neg (by rintro ⟨h1, h2⟩; simp at h1)]

/-- C9 witness: the spec scenario number. -/
theorem c9_cleanPhoneNumber_normalizes_witness :
    Normalizer.cleanPhoneNumber (some "0712345678") = some "+40712345678"
    ∧ Normalizer.cleanPhoneNumber (some "+40712345678") = some "+40712345678" := by
  have h := c9_cleanPhoneNumber_normalizes "712345678".data (by decide) (by decide)
  exact ⟨h.1, h.2.1 "40712345678".data (by decide)⟩

/-- C10: the `markDelivered` route handler can never produce its 200 success
response: `module.exports` of order.service.js does not export a
`markDelivered` property, so the handler's service call invokes `undefined`
and raises a TypeError before any order can be delivered, whatever the
would-be implementation, order id or request body. -/
theorem c10_markDelivered_route_never_succeeds
    (impl : String → String → Except String (Option Order)) (oid : String)
    (otpBody : Option String) :
    OrderController.markDelivered
      (if "markDelivered" ∈ OrderController.orderServiceExports then some impl else none)
      oid otpBody ≠ HandlerOutcome.response 200 true := by
  have hnone : (if "markDelivered" ∈ OrderController.orderServiceExports
      then some impl else none) = none := by
    rw [if_neg (by decide)]
  rw [hnone]
  unfold OrderController.markDelivered
  cases hb : strTruthy otpBody with
  | false => simp [hb]
  | true =>
    simp only [hb, Bool.not_true, Bool.false_eq_true, if_false]
    decide
